import Mathlib

/-!
Shallow embedding of the `carton` container launcher (crates/libcarton) and
verification of its specification.

Paths are modelled as component lists with an absolute-path marker, mount
flags as Linux bit values, and every kernel primitive the child invokes as a
constructor of `Syscall`.  Each function of `namespace.rs` is embedded as the
ordered list of syscalls it issues; a short-circuiting executor models the
`?`-propagation of failures.
-/

/-- A filesystem path: Rust `PathBuf`, as an absolute-path marker plus the
list of path components.  `join` follows `PathBuf::join`: an absolute
right-hand side replaces the left-hand side. -/
structure PathBuf where
  absolute : Bool
  components : List String
deriving DecidableEq, Repr

def PathBuf.join (p q : PathBuf) : PathBuf :=
  if q.absolute then q else ⟨p.absolute, p.components ++ q.components⟩

/-- The path `/`. -/
def rootPath : PathBuf := ⟨true, []⟩

/-- Renders a path the way Rust displays it. -/
def PathBuf.render (p : PathBuf) : String :=
  (if p.absolute then "/" else "") ++ String.intercalate "/" p.components

/-- Debug formatting of an `Option<PathBuf>`, as in `format!("{:?}", ...)`. -/
def optPathDebug : Option PathBuf → String
  | none => "None"
  | some p => "Some(\"" ++ p.render ++ "\")"

/- Linux mount / mknod constants, bit-exact. -/

def MS_BIND : Nat := 4096
def MS_REC : Nat := 16384
def MS_PRIVATE : Nat := 262144
def MS_SLAVE : Nat := 524288
def MNT_DETACH : Nat := 2
def S_IFCHR : Nat := 8192

/-- `makedev` as implemented by nix / glibc. -/
def makedev (major minor : Nat) : Nat :=
  ((major &&& 0xfffff000) <<< 32) ||| ((major &&& 0xfff) <<< 8) |||
  ((minor &&& 0xffffff00) <<< 12) ||| (minor &&& 0xff)

/-- One kernel primitive invocation issued by the child. -/
inductive Syscall where
  | mount (source : Option PathBuf) (target : PathBuf) (fstype : Option String)
      (flags : Nat) (data : Option String)
  | pivotRoot (newRoot : PathBuf) (putOld : PathBuf)
  | umount2 (target : PathBuf) (flags : Nat)
  | mknod (path : PathBuf) (kind : Nat) (mode : Nat) (dev : Nat)
  | symlinkat (target : PathBuf) (linkPath : PathBuf)
deriving DecidableEq, Repr

/-- Is the call a `mount`? -/
def Syscall.isMount : Syscall → Bool
  | .mount _ _ _ _ _ => true
  | _ => false

/-- Is the call a `mknod` or `symlinkat` (device-node / symlink creation)? -/
def Syscall.isDevSetup : Syscall → Bool
  | .mknod _ _ _ _ => true
  | .symlinkat _ _ => true
  | _ => false

/-- Executes a call list under a success oracle, modelling `?`-propagation:
calls are issued in order, and the first failing call (which was still
issued) ends the run.  Returns the issued trace and whether all succeeded. -/
def runCalls (ok : Syscall → Bool) : List Syscall → List Syscall × Bool
  | [] => ([], true)
  | c :: cs =>
    if ok c then
      let r := runCalls ok cs
      (c :: r.1, r.2)
    else ([c], false)

/-- `MountSpecification`: the simpler mount representation `namespace.rs`
works with.  Its declaration is not under src/ (only its uses are, in
`namespace.rs`); modelled from the spec (§9): "a simpler
`{source, destination}` pair", with both fields paths, matching every use in
`namespace.rs` (`.source`, `.destination`). -/
structure MountSpecification where
  source : PathBuf
  destination : PathBuf
deriving DecidableEq, Repr

/-- A device node to create under `/dev` (container.rs `DeviceNode`). -/
structure DeviceNode where
  path : PathBuf
  major : Nat
  minor : Nat
deriving DecidableEq, Repr

/-- The configuration view consumed by `namespace.rs`: a rootfs mount
specification plus the mount and device lists.  Modelled from the spec
(§2 `Config`): the `MountSpecification`-based `ContainerConfiguration` that
`namespace.rs` imports is not under src/; fields follow its uses
(`config.rootfs`, `config.mounts`, `config.devices`). -/
structure NamespaceConfiguration where
  rootfs : MountSpecification
  mounts : List MountSpecification
  devices : List DeviceNode
deriving DecidableEq, Repr

/-- Calls of `prepare_rootfs` (namespace.rs): REC|PRIVATE remount of `/`,
then the self bind of the rootfs source, BIND|PRIVATE. -/
def prepare_rootfs_calls (root_spec : MountSpecification) : List Syscall :=
  [Syscall.mount none rootPath none (MS_REC ||| MS_PRIVATE) none,
   Syscall.mount (some root_spec.source) root_spec.source none (MS_BIND ||| MS_PRIVATE) none]

/-- Calls of `mount_procfs` (namespace.rs). -/
def mount_procfs_calls (root_mount : MountSpecification) : List Syscall :=
  [Syscall.mount none (root_mount.source.join ⟨false, ["proc"]⟩) (some "proc") 0 none]

/-- Calls of `mount_tmp` (namespace.rs). -/
def mount_tmp_calls (root_mount : MountSpecification) : List Syscall :=
  [Syscall.mount none (root_mount.source.join ⟨false, ["tmp"]⟩) (some "tmpfs") 0 none]

/-- Calls of `mount_additional_binds` (namespace.rs): each listed
specification, in order, bind-mounted BIND|PRIVATE at
`root.source.join(destination)`. -/
def mount_additional_binds_calls (root_mount : MountSpecification)
    (mounts : List MountSpecification) : List Syscall :=
  mounts.map (fun m =>
    Syscall.mount (some m.source) (root_mount.source.join m.destination) none
      (MS_BIND ||| MS_PRIVATE) none)

/-- Calls of `mount_dev` (namespace.rs). -/
def mount_dev_calls (root_spec : MountSpecification) : List Syscall :=
  [Syscall.mount none (root_spec.source.join ⟨false, ["dev"]⟩) (some "tmpfs") 0 none]

/-- Calls of `create_device_nodes` (namespace.rs): a `mknod` per listed
device, then the four descriptor symlinks. -/
def create_device_nodes_calls (root_spec : MountSpecification)
    (devices : List DeviceNode) : List Syscall :=
  let dev_path := root_spec.source.join ⟨false, ["dev"]⟩
  (devices.map (fun node =>
    Syscall.mknod (dev_path.join node.path) S_IFCHR 438 (makedev node.major node.minor)))
  ++ [Syscall.symlinkat ⟨true, ["proc", "self", "fd"]⟩ (dev_path.join ⟨false, ["fd"]⟩),
      Syscall.symlinkat ⟨true, ["proc", "self", "fd", "0"]⟩ (dev_path.join ⟨false, ["stdin"]⟩),
      Syscall.symlinkat ⟨true, ["proc", "self", "fd", "1"]⟩ (dev_path.join ⟨false, ["stdout"]⟩),
      Syscall.symlinkat ⟨true, ["proc", "self", "fd", "2"]⟩ (dev_path.join ⟨false, ["stderr"]⟩)]

/-- Calls of `mount_rootfs` (namespace.rs): `pivot_root` with the same path
as new root and put-old, SLAVE|REC remount of `/`, detach-unmount of `/`. -/
def mount_rootfs_calls (root_spec : MountSpecification) : List Syscall :=
  [Syscall.pivotRoot root_spec.source root_spec.source,
   Syscall.mount none rootPath none (MS_SLAVE ||| MS_REC) none,
   Syscall.umount2 rootPath MNT_DETACH]

/-- The mount phase of `setup_namespaces`: procfs, tmp, the additional
binds, then dev (the calls between the rootfs preparation and the device
node creation). -/
def setup_mount_phase (config : NamespaceConfiguration) : List Syscall :=
  mount_procfs_calls config.rootfs ++ mount_tmp_calls config.rootfs
  ++ mount_additional_binds_calls config.rootfs config.mounts
  ++ mount_dev_calls config.rootfs

/-- Calls of `setup_namespaces` (namespace.rs), in source order:
`prepare_rootfs`, `mount_procfs`, `mount_tmp`, `mount_additional_binds`,
`mount_dev`, `create_device_nodes`, `mount_rootfs`. -/
def setup_namespaces_calls (config : NamespaceConfiguration) : List Syscall :=
  prepare_rootfs_calls config.rootfs
  ++ setup_mount_phase config
  ++ create_device_nodes_calls config.rootfs config.devices
  ++ mount_rootfs_calls config.rootfs

/-- `CartonError` (error.rs). -/
inductive CartonError where
  | MissingRequiredConfiguration (field : String)
  | InvalidConfiguration (message : String)
  | AlreadyRunning
  | SysCallFailed (message : String)
  | NamespaceError (message : String)
  | IOError (message : String)
deriving DecidableEq, Repr

/-- `ContainerState` (container.rs); `NotCreated` is the `Default`. -/
inductive ContainerState where
  | NotCreated
  | Running
  | Exited
deriving DecidableEq, Repr

instance : Inhabited ContainerState := ⟨ContainerState.NotCreated⟩

/-- The richer mount representation `Mount` (container.rs). -/
structure Mount where
  source : Option PathBuf
  relative_target : PathBuf
  fstype : Option String
  flags : Nat
  data : Option String
deriving DecidableEq, Repr

/-- `Mount::bind` (container.rs): default flags are BIND|PRIVATE. -/
def Mount.bind (source : PathBuf) (relative_target : PathBuf)
    (flags : Option Nat) (data : Option String) : Mount :=
  ⟨some source, relative_target, none, flags.getD (MS_BIND ||| MS_PRIVATE), data⟩

/-- `Mount::procfs` (container.rs). -/
def Mount.procfs (relative_target : PathBuf) : Mount :=
  ⟨none, relative_target, some "proc", 0, none⟩

/-- `Mount::rootfs` (container.rs): empty relative target, BIND|PRIVATE. -/
def Mount.rootfs (source : PathBuf) : Mount :=
  ⟨some source, ⟨false, []⟩, none, MS_BIND ||| MS_PRIVATE, none⟩

/-- `Mount::tmpfs` (container.rs). -/
def Mount.tmpfs (relative_target : PathBuf) : Mount :=
  ⟨none, relative_target, some "tmpfs", 0, none⟩

/-- The kernel call issued by `Mount::mount` (container.rs): target is
`rootfs_path.join(relative_target)`, with the spec's own source, fstype,
flags and data. -/
def Mount.mountCall (m : Mount) (rootfs_path : PathBuf) : Syscall :=
  Syscall.mount m.source (rootfs_path.join m.relative_target) m.fstype m.flags m.data

/-- `ContainerConfiguration` (container.rs). -/
structure ContainerConfiguration where
  rootfs : Option Mount := none
  command : Option PathBuf := none
  arguments : List String := []
  mounts : List Mount := []
  devices : List DeviceNode := []
deriving DecidableEq, Repr

instance : Inhabited ContainerConfiguration := ⟨{}⟩

/-- Result of `ContainerConfiguration::validate`; `panicked` models the
`expect` on a rootfs mount whose source is `None`. -/
inductive ValidateResult where
  | ok
  | err (e : CartonError)
  | panicked
deriving DecidableEq, Repr

/-- `ContainerConfiguration::validate` (container.rs).  `isDir` is the host
filesystem's answer to `Path::is_dir`. -/
def ContainerConfiguration.validate (config : ContainerConfiguration)
    (isDir : PathBuf → Bool) : ValidateResult :=
  match config.rootfs with
  | none => ValidateResult.err (CartonError.MissingRequiredConfiguration "rootfs")
  | some root_spec =>
    match root_spec.source with
    | none => ValidateResult.panicked
    | some src =>
      if !(isDir src) then
        ValidateResult.err (CartonError.InvalidConfiguration
          ("rootfs does not exist or is not a directory: " ++ optPathDebug root_spec.source))
      else if config.command = none then
        ValidateResult.err (CartonError.MissingRequiredConfiguration "command")
      else ValidateResult.ok

/-- `ContainerBuffer` (container.rs): the child stack bytes. -/
structure ContainerBuffer where
  stack : List Nat := []
deriving DecidableEq, Repr

instance : Inhabited ContainerBuffer := ⟨{}⟩

/-- `Container` (container.rs). -/
structure Container where
  state : ContainerState := ContainerState.NotCreated
  pid : Option Nat := none
  config : ContainerConfiguration := {}
  buffer : ContainerBuffer := {}
deriving DecidableEq, Repr

instance : Inhabited Container := ⟨{}⟩

/-- Outcome of `Container::run`: `Ok(())`, a returned error, or a panic
reached through `validate`. -/
inductive RunOutcome where
  | ok
  | err (e : CartonError)
  | panicked
deriving DecidableEq, Repr

/-- Result of one `Container::run` call: the updated container, the
returned value, and whether the clone primitive was invoked. -/
structure RunResult where
  container : Container
  outcome : RunOutcome
  cloneCalled : Bool
deriving DecidableEq, Repr

/-- `Container::run` (container.rs).  The clone primitive's outcome is the
parameter `cloneResult` (`Ok(pid)` or an error); the child's behaviour is
not part of the parent-side state machine. -/
def Container.run (c : Container) (isDir : PathBuf → Bool)
    (cloneResult : Except CartonError Nat) : RunResult :=
  match c.state with
  | ContainerState.Running => ⟨c, RunOutcome.err CartonError.AlreadyRunning, false⟩
  | _ =>
    match c.config.validate isDir with
    | ValidateResult.err e => ⟨c, RunOutcome.err e, false⟩
    | ValidateResult.panicked => ⟨c, RunOutcome.panicked, false⟩
    | ValidateResult.ok =>
      match cloneResult with
      | Except.error e => ⟨c, RunOutcome.err e, true⟩
      | Except.ok pid =>
        ⟨{ c with pid := some pid, state := ContainerState.Running }, RunOutcome.ok, true⟩

/-- What `waitpid` reported, as matched by `wait_for_exit`. -/
inductive WaitOutcome where
  | exited (pid : Nat) (code : Int)
  | otherStatus
  | waitError
deriving DecidableEq, Repr

/-- `Container::wait_for_exit` (container.rs): each arm of the match only
logs; afterwards the PID is cleared and the state set to `Exited`,
unconditionally, and nothing is returned. -/
def Container.wait_for_exit (c : Container) (w : WaitOutcome) : Container :=
  match w with
  | WaitOutcome.exited _ _ => { c with pid := none, state := ContainerState.Exited }
  | WaitOutcome.otherStatus => { c with pid := none, state := ContainerState.Exited }
  | WaitOutcome.waitError => { c with pid := none, state := ContainerState.Exited }

/-- How the child entry ends after `execute_command` (container.rs):
a returned status code, a successful `execv` (process replaced), or a Rust
panic (an `expect`/`unwrap` fired). -/
inductive ChildResult where
  | code (status : Int)
  | execReplaced
  | panicked
deriving DecidableEq, Repr

/-- `CString::new` succeeds iff the string has no interior NUL byte. -/
def cstringOk (s : String) : Bool :=
  !(s.toList.any (fun c => c = Char.ofNat 0))

/-- `execute_command` (container.rs): a failed `CString` conversion of the
command returns 126; a NUL in an argument fires the `expect`; if `execv`
returns (i.e. fails), `.and(Ok(0)).unwrap()` is `unwrap` of an `Err`, a
panic.  `execvFails` tells whether the `execv` primitive returns. -/
def execute_command (command : String) (arguments : List String)
    (execvFails : Bool) : ChildResult :=
  if !(cstringOk command) then ChildResult.code 126
  else if arguments.any (fun a => !(cstringOk a)) then ChildResult.panicked
  else if execvFails then ChildResult.panicked
  else ChildResult.execReplaced

/-- Modelled from the spec: the compile-time default child stack size.  The
constant `DEFAULT_CONTAINER_STACK_SIZE` lives in `consts.rs`, which is not
under src/ (lib.rs declares `mod consts`); the spec (§3) only calls it "a
compile-time default", so a definite plausible value (1 MiB) is chosen. -/
def DEFAULT_CONTAINER_STACK_SIZE : Nat := 1024 * 1024

/-- `u64::MAX`, the rlimit "unlimited" sentinel. -/
def u64MAX : Nat := 2 ^ 64 - 1

/-- `ContainerBuilder` (container_builder.rs). -/
structure ContainerBuilder where
  stack_size : Option Nat := none
  config : ContainerConfiguration := {}
deriving DecidableEq, Repr

/-- `ContainerBuilder::new` (container_builder.rs). -/
def ContainerBuilder.new : ContainerBuilder := {}

/-- `ContainerBuilder::rootfs` (container_builder.rs). -/
def ContainerBuilder.rootfs (b : ContainerBuilder) (path : PathBuf) : ContainerBuilder :=
  { b with config := { b.config with rootfs := some (Mount.rootfs path) } }

/-- `ContainerBuilder::command` (container_builder.rs): absent args mean an
empty vector. -/
def ContainerBuilder.command (b : ContainerBuilder) (command : PathBuf)
    (args : Option (List String)) : ContainerBuilder :=
  { b with config := { b.config with command := some command, arguments := args.getD [] } }

/-- `ContainerBuilder::stack_size` (container_builder.rs), named
`stack_size_set` here to keep the field's projection name free. -/
def ContainerBuilder.stack_size_set (b : ContainerBuilder) (size : Nat) : ContainerBuilder :=
  { b with stack_size := some size }

/-- `ContainerBuilder::add_default_mounts` (container_builder.rs): extends
the mount list with procfs at `proc`, tmpfs at `tmp`, tmpfs at `dev`. -/
def ContainerBuilder.add_default_mounts (b : ContainerBuilder) : ContainerBuilder :=
  { b with config := { b.config with mounts := b.config.mounts ++
      [Mount.procfs ⟨false, ["proc"]⟩,
       Mount.tmpfs ⟨false, ["tmp"]⟩,
       Mount.tmpfs ⟨false, ["dev"]⟩] } }

/-- `ContainerBuilder::add_mount` (container_builder.rs): appends a
default-flagged bind mount. -/
def ContainerBuilder.add_mount (b : ContainerBuilder) (source : PathBuf)
    (relative_target : PathBuf) : ContainerBuilder :=
  { b with config := { b.config with mounts := b.config.mounts ++
      [Mount.bind source relative_target none none] } }

/-- `ContainerBuilder::add_default_devices` (container_builder.rs). -/
def ContainerBuilder.add_default_devices (b : ContainerBuilder) : ContainerBuilder :=
  { b with config := { b.config with devices := b.config.devices ++
      [⟨⟨false, ["null"]⟩, 1, 3⟩,
       ⟨⟨false, ["zero"]⟩, 1, 5⟩,
       ⟨⟨false, ["full"]⟩, 1, 7⟩,
       ⟨⟨false, ["tty"]⟩, 5, 0⟩,
       ⟨⟨false, ["urandom"]⟩, 1, 9⟩,
       ⟨⟨false, ["random"]⟩, 1, 8⟩] } }

/-- `ContainerBuilder::add_device` (container_builder.rs). -/
def ContainerBuilder.add_device (b : ContainerBuilder) (path : PathBuf)
    (major minor : Nat) : ContainerBuilder :=
  { b with config := { b.config with devices := b.config.devices ++ [⟨path, major, minor⟩] } }

/-- `ContainerBuilder::determine_stack_size` (container_builder.rs).
`rlimitSoft` is `getrlimit(RLIMIT_STACK)`'s soft limit, `none` on error;
a value equal to `u64::MAX` (from either source) selects the default. -/
def ContainerBuilder.determine_stack_size (b : ContainerBuilder)
    (rlimitSoft : Option Nat) : Nat :=
  match b.stack_size.orElse (fun _ => rlimitSoft) with
  | some size => if size = u64MAX then DEFAULT_CONTAINER_STACK_SIZE else size
  | none => DEFAULT_CONTAINER_STACK_SIZE

/-- `ContainerBuilder::build` (container_builder.rs): allocates the stack
buffer and always returns `Ok`, the remaining fields defaulted. -/
def ContainerBuilder.build (b : ContainerBuilder) (rlimitSoft : Option Nat) :
    Except CartonError Container :=
  Except.ok
    { config := b.config
      buffer := ⟨List.replicate (b.determine_stack_size rlimitSoft) 0⟩ }

/-- Modelled from the spec (§4.4 step 3) for comparison with the code: "For
each `MountSpec` in declaration order, compute the absolute target as
`rootfs_source ∪ relative_target` and invoke the kernel `mount` primitive
with the spec's source (or null for virtual fs), fstype, flags, and data."
The application of one spec is the code's own `Mount::mount` call shape. -/
def specMountPhase (rootfsSrc : PathBuf) (mounts : List Mount) : List Syscall :=
  mounts.map (fun m => m.mountCall rootfsSrc)

/- Concrete objects used by counterexamples and witnesses. -/

def exampleRootfsPath : PathBuf := ⟨true, ["rootfs"]⟩

def exampleHostData : PathBuf := ⟨true, ["host", "data"]⟩

def exampleDataTarget : PathBuf := ⟨false, ["data"]⟩

/-- A namespace-side configuration with one user bind mount. -/
def exampleNsConfig : NamespaceConfiguration :=
  { rootfs := ⟨exampleRootfsPath, ⟨false, []⟩⟩
    mounts := [⟨exampleHostData, exampleDataTarget⟩]
    devices := [] }

/-- The builder-side mount list for the same scenario: the canonical
default mounts followed by one user bind mount. -/
def exampleSpecMounts : List Mount :=
  ((ContainerBuilder.new.add_default_mounts).add_mount exampleHostData
    exampleDataTarget).config.mounts

/-- A configuration that passes validation. -/
def goodConfig : ContainerConfiguration :=
  { rootfs := some (Mount.rootfs exampleRootfsPath)
    command := some ⟨true, ["bin", "true"]⟩ }

/-- `goodConfig` without the command. -/
def noCommandConfig : ContainerConfiguration :=
  { rootfs := some (Mount.rootfs exampleRootfsPath) }

/-- A host on which every path is a directory. -/
def allDirs : PathBuf → Bool := fun _ => true

def goodContainer : Container := { config := goodConfig }

def runningContainer : Container :=
  { state := ContainerState.Running, pid := some 1, config := goodConfig }

def exitedContainer : Container :=
  { state := ContainerState.Exited, config := goodConfig }

/-- The first call of any run of a nonempty call list is its head, whether
or not that call succeeds. -/
theorem runCalls_head (ok : Syscall → Bool) (c : Syscall) (cs : List Syscall) :
    ((runCalls ok (c :: cs)).1).head? = some c := by
  simp only [runCalls]
  split <;> simp

/-- C3: the spec says a returning `execv` makes the child exit with status
126; the code instead fires `.and(Ok(0)).unwrap()` on the `execv` error and
panics, so evaluating `execute_command` at the E4 scenario
(`/bin/nonexistent`, `execv` returns) yields a panic, not the code 126. -/
theorem C3_execv_return_panics :
    execute_command "/bin/nonexistent" [] true = ChildResult.panicked ∧
    execute_command "/bin/nonexistent" [] true ≠ ChildResult.code 126 := by
  decide

/-- C9: `wait_for_exit` unconditionally clears the recorded PID and sets
the state to `Exited`, for every outcome of `waitpid` (normal exit, other
status, wait error), leaving the rest of the container untouched and
returning nothing. -/
theorem C9_wait_always_clears : ∀ (c : Container) (w : WaitOutcome),
    c.wait_for_exit w = { c with pid := none, state := ContainerState.Exited } := by
  intro c w
  cases w <;> rfl

/-- C10: `run()` on an `Exited` container is not rejected: the state check
only rejects `Running`, so with a valid configuration and a successful
clone the container is re-launched into `Running`. -/
theorem C10_exited_relaunch : ∀ (c : Container) (isDir : PathBuf → Bool) (p : Nat),
    c.state = ContainerState.Exited →
    c.config.validate isDir = ValidateResult.ok →
    (c.run isDir (Except.ok p)).outcome = RunOutcome.ok
    ∧ (c.run isDir (Except.ok p)).outcome ≠ RunOutcome.err CartonError.AlreadyRunning
    ∧ (c.run isDir (Except.ok p)).cloneCalled = true
    ∧ (c.run isDir (Except.ok p)).container.state = ContainerState.Running
    ∧ (c.run isDir (Except.ok p)).container.pid = some p := by
  intro c isDir p hstate hvalid
  simp [Container.run, hstate, hvalid]

/-- Witness for C10: a concrete `Exited` container with a valid
configuration is re-launched. -/
theorem C10_exited_relaunch_witness :
    (exitedContainer.run allDirs (Except.ok 7)).outcome = RunOutcome.ok
    ∧ (exitedContainer.run allDirs (Except.ok 7)).outcome ≠ RunOutcome.err CartonError.AlreadyRunning
    ∧ (exitedContainer.run allDirs (Except.ok 7)).cloneCalled = true
    ∧ (exitedContainer.run allDirs (Except.ok 7)).container.state = ContainerState.Running
    ∧ (exitedContainer.run allDirs (Except.ok 7)).container.pid = some 7 :=
  C10_exited_relaunch exitedContainer allDirs 7 rfl rfl

/-- C8: `build()` performs no validation: every builder configuration
builds (`Ok`), and a missing rootfs or missing command surfaces only from
`run()`, which then does not invoke the clone primitive. -/
theorem C8_build_never_fails :
    ∀ (b : ContainerBuilder) (r : Option Nat) (isDir : PathBuf → Bool)
      (clone : Except CartonError Nat),
    (∃ c, b.build r = Except.ok c)
    ∧ (b.config.rootfs = none → ∀ c, b.build r = Except.ok c →
        (c.run isDir clone).outcome
          = RunOutcome.err (CartonError.MissingRequiredConfiguration "rootfs")
        ∧ (c.run isDir clone).cloneCalled = false)
    ∧ (∀ m src, b.config.rootfs = some m → m.source = some src → isDir src = true →
        b.config.command = none → ∀ c, b.build r = Except.ok c →
        (c.run isDir clone).outcome
          = RunOutcome.err (CartonError.MissingRequiredConfiguration "command")
        ∧ (c.run isDir clone).cloneCalled = false) := by
  intro b r isDir clone
  refine ⟨⟨_, rfl⟩, ?_, ?_⟩
  · intro hroot c hc
    cases hc
    simp [Container.run, ContainerBuilder.build, ContainerConfiguration.validate, hroot]
  · intro m src hroot hsrc hdir hcmd c hc
    cases hc
    simp [Container.run, ContainerBuilder.build, ContainerConfiguration.validate,
      hroot, hsrc, hdir, hcmd]

/-- Witness for C8: a fresh builder (no rootfs) and a rootfs-only builder
(no command) still build, and running the results yields the corresponding
validation error without cloning. -/
theorem C8_build_never_fails_witness :
    (((ContainerBuilder.new.build none).toOption.getD {}).run allDirs (Except.ok 7)).outcome
      = RunOutcome.err (CartonError.MissingRequiredConfiguration "rootfs")
    ∧ (((ContainerBuilder.new.build none).toOption.getD {}).run allDirs
        (Except.ok 7)).cloneCalled = false
    ∧ ((((ContainerBuilder.new.rootfs exampleRootfsPath).build none).toOption.getD {}).run
          allDirs (Except.ok 7)).outcome
        = RunOutcome.err (CartonError.MissingRequiredConfiguration "command") :=
  ⟨((C8_build_never_fails ContainerBuilder.new none allDirs (Except.ok 7)).2.1 rfl
      ((ContainerBuilder.new.build none).toOption.getD {}) rfl).1,
   ((C8_build_never_fails ContainerBuilder.new none allDirs (Except.ok 7)).2.1 rfl
      ((ContainerBuilder.new.build none).toOption.getD {}) rfl).2,
   ((C8_build_never_fails (ContainerBuilder.new.rootfs exampleRootfsPath) none allDirs
        (Except.ok 7)).2.2 (Mount.rootfs exampleRootfsPath) exampleRootfsPath rfl rfl rfl rfl
      (((ContainerBuilder.new.rootfs exampleRootfsPath).build none).toOption.getD {}) rfl).1⟩

/-- Counterexample to C4 as stated: an explicit `stack_size(u64::MAX)` does
not give a buffer of size `u64::MAX`; the code maps the sentinel to the
compile-time default even when it was set explicitly. -/
theorem C4_counterexample :
    (ContainerBuilder.new.stack_size_set u64MAX).determine_stack_size (some 8192)
      = DEFAULT_CONTAINER_STACK_SIZE
    ∧ DEFAULT_CONTAINER_STACK_SIZE ≠ u64MAX := by
  constructor
  · rfl
  · decide

/-- C4 (amended): the buffer size chosen by `build()` is exactly `N` for an
explicit `stack_size(N)` with `N ≠ u64::MAX`; the default for an explicit
`u64::MAX`; the soft rlimit `R` when there is no override and the query
succeeds with finite `R`; and the default when there is no override and the
query fails or reports the `u64::MAX` sentinel.  The built buffer's length
is the chosen size. -/
theorem C4_stack_sizing :
    (∀ (b : ContainerBuilder) (n : Nat) (r : Option Nat), n ≠ u64MAX →
      (b.stack_size_set n).determine_stack_size r = n)
    ∧ (∀ (b : ContainerBuilder) (r : Option Nat),
        (b.stack_size_set u64MAX).determine_stack_size r = DEFAULT_CONTAINER_STACK_SIZE)
    ∧ (∀ (b : ContainerBuilder) (R : Nat), b.stack_size = none → R ≠ u64MAX →
        b.determine_stack_size (some R) = R)
    ∧ (∀ (b : ContainerBuilder), b.stack_size = none →
        b.determine_stack_size (some u64MAX) = DEFAULT_CONTAINER_STACK_SIZE)
    ∧ (∀ (b : ContainerBuilder), b.stack_size = none →
        b.determine_stack_size none = DEFAULT_CONTAINER_STACK_SIZE)
    ∧ (∀ (b : ContainerBuilder) (r : Option Nat) (c : Container),
        b.build r = Except.ok c → c.buffer.stack.length = b.determine_stack_size r) := by
  refine ⟨?_, ?_, ?_, ?_, ?_, ?_⟩
  · intro b n r h
    simp [ContainerBuilder.stack_size_set, ContainerBuilder.determine_stack_size,
      Option.orElse, h]
  · intro b r
    simp [ContainerBuilder.stack_size_set, ContainerBuilder.determine_stack_size,
      Option.orElse]
  · intro b R h hR
    simp [ContainerBuilder.determine_stack_size, Option.orElse, h, hR]
  · intro b h
    simp [ContainerBuilder.determine_stack_size, Option.orElse, h]
  · intro b h
    simp [ContainerBuilder.determine_stack_size, Option.orElse, h]
  · intro b r c hc
    cases hc
    simp [ContainerBuilder.build]

/-- Witness for C4: concrete instances of each hypothesis-bearing case of
the amended stack-sizing law. -/
theorem C4_stack_sizing_witness :
    (ContainerBuilder.new.stack_size_set 4096).determine_stack_size none = 4096
    ∧ ContainerBuilder.new.determine_stack_size (some 8192) = 8192
    ∧ ContainerBuilder.new.determine_stack_size (some u64MAX) = DEFAULT_CONTAINER_STACK_SIZE
    ∧ ContainerBuilder.new.determine_stack_size none = DEFAULT_CONTAINER_STACK_SIZE
    ∧ ((ContainerBuilder.new.build none).toOption.getD {}).buffer.stack.length
        = ContainerBuilder.new.determine_stack_size none :=
  ⟨C4_stack_sizing.1 ContainerBuilder.new 4096 none (by decide),
   C4_stack_sizing.2.2.1 ContainerBuilder.new 8192 rfl (by decide),
   C4_stack_sizing.2.2.2.1 ContainerBuilder.new rfl,
   C4_stack_sizing.2.2.2.2.1 ContainerBuilder.new rfl,
   C4_stack_sizing.2.2.2.2.2 ContainerBuilder.new none
     ((ContainerBuilder.new.build none).toOption.getD {}) rfl⟩

/-- C7: `add_default_devices()` appends exactly the canonical six character
devices, in order `null (1,3)`, `zero (1,5)`, `full (1,7)`, `tty (5,0)`,
`urandom (1,9)`, `random (1,8)`; and `create_device_nodes` creates each
listed device under `<rootfs>/dev` with `mknod`, type `S_IFCHR`, mode
`0o666`, device id `makedev(major, minor)`, before the descriptor
symlinks. -/
theorem C7_default_devices :
    (ContainerBuilder.new.add_default_devices).config.devices =
      [⟨⟨false, ["null"]⟩, 1, 3⟩, ⟨⟨false, ["zero"]⟩, 1, 5⟩, ⟨⟨false, ["full"]⟩, 1, 7⟩,
       ⟨⟨false, ["tty"]⟩, 5, 0⟩, ⟨⟨false, ["urandom"]⟩, 1, 9⟩, ⟨⟨false, ["random"]⟩, 1, 8⟩]
    ∧ (∀ b : ContainerBuilder, (b.add_default_devices).config.devices =
        b.config.devices ++
          [⟨⟨false, ["null"]⟩, 1, 3⟩, ⟨⟨false, ["zero"]⟩, 1, 5⟩, ⟨⟨false, ["full"]⟩, 1, 7⟩,
           ⟨⟨false, ["tty"]⟩, 5, 0⟩, ⟨⟨false, ["urandom"]⟩, 1, 9⟩, ⟨⟨false, ["random"]⟩, 1, 8⟩])
    ∧ (∀ root : MountSpecification,
        create_device_nodes_calls root (ContainerBuilder.new.add_default_devices).config.devices =
          [Syscall.mknod ⟨root.source.absolute, root.source.components ++ ["dev", "null"]⟩
             S_IFCHR 438 (makedev 1 3),
           Syscall.mknod ⟨root.source.absolute, root.source.components ++ ["dev", "zero"]⟩
             S_IFCHR 438 (makedev 1 5),
           Syscall.mknod ⟨root.source.absolute, root.source.components ++ ["dev", "full"]⟩
             S_IFCHR 438 (makedev 1 7),
           Syscall.mknod ⟨root.source.absolute, root.source.components ++ ["dev", "tty"]⟩
             S_IFCHR 438 (makedev 5 0),
           Syscall.mknod ⟨root.source.absolute, root.source.components ++ ["dev", "urandom"]⟩
             S_IFCHR 438 (makedev 1 9),
           Syscall.mknod ⟨root.source.absolute, root.source.components ++ ["dev", "random"]⟩
             S_IFCHR 438 (makedev 1 8)]
          ++ [Syscall.symlinkat ⟨true, ["proc", "self", "fd"]⟩
                ⟨root.source.absolute, root.source.components ++ ["dev", "fd"]⟩,
              Syscall.symlinkat ⟨true, ["proc", "self", "fd", "0"]⟩
                ⟨root.source.absolute, root.source.components ++ ["dev", "stdin"]⟩,
              Syscall.symlinkat ⟨true, ["proc", "self", "fd", "1"]⟩
                ⟨root.source.absolute, root.source.components ++ ["dev", "stdout"]⟩,
              Syscall.symlinkat ⟨true, ["proc", "self", "fd", "2"]⟩
                ⟨root.source.absolute, root.source.components ++ ["dev", "stderr"]⟩]) := by
  refine ⟨rfl, ?_, ?_⟩
  · intro b
    simp [ContainerBuilder.add_default_devices]
  · intro root
    simp [create_device_nodes_calls, ContainerBuilder.add_default_devices,
      ContainerBuilder.new, PathBuf.join]

/-- C5: for every configuration whose rootfs mount (when present) carries a
source, `validate()` errors exactly in three cases — rootfs absent
(`MissingRequiredConfiguration "rootfs"`), rootfs source not a directory on
the host (`InvalidConfiguration` with the stated message), command absent
(`MissingRequiredConfiguration "command"`) — succeeds otherwise, and never
inspects the extra mounts or the devices. -/
theorem C5_validate_characterisation :
    ∀ (cfg : ContainerConfiguration) (isDir : PathBuf → Bool),
    (∀ m, cfg.rootfs = some m → m.source ≠ none) →
    (cfg.rootfs = none →
        cfg.validate isDir
          = ValidateResult.err (CartonError.MissingRequiredConfiguration "rootfs"))
    ∧ (∀ m src, cfg.rootfs = some m → m.source = some src → isDir src = false →
        cfg.validate isDir = ValidateResult.err (CartonError.InvalidConfiguration
          ("rootfs does not exist or is not a directory: " ++ optPathDebug m.source)))
    ∧ (∀ m src, cfg.rootfs = some m → m.source = some src → isDir src = true →
        cfg.command = none →
        cfg.validate isDir
          = ValidateResult.err (CartonError.MissingRequiredConfiguration "command"))
    ∧ (∀ m src, cfg.rootfs = some m → m.source = some src → isDir src = true →
        cfg.command ≠ none → cfg.validate isDir = ValidateResult.ok)
    ∧ (∀ ms ds, ContainerConfiguration.validate { cfg with mounts := ms, devices := ds } isDir
        = cfg.validate isDir) := by
  intro cfg isDir _hsrc
  refine ⟨?_, ?_, ?_, ?_, ?_⟩
  · intro hroot
    simp [ContainerConfiguration.validate, hroot]
  · intro m src hroot hs hdir
    simp [ContainerConfiguration.validate, hroot, hs, hdir]
  · intro m src hroot hs hdir hcmd
    simp [ContainerConfiguration.validate, hroot, hs, hdir, hcmd]
  · intro m src hroot hs hdir hcmd
    simp [ContainerConfiguration.validate, hroot, hs, hdir, hcmd]
  · intro ms ds
    simp [ContainerConfiguration.validate]

/-- Witness for C5: each rejection case at a concrete configuration —
missing rootfs, rootfs not a directory, missing command — plus acceptance
and the mounts/devices independence. -/
theorem C5_validate_characterisation_witness :
    ContainerConfiguration.validate {} allDirs
      = ValidateResult.err (CartonError.MissingRequiredConfiguration "rootfs")
    ∧ ContainerConfiguration.validate noCommandConfig (fun _ => false)
      = ValidateResult.err (CartonError.InvalidConfiguration
          ("rootfs does not exist or is not a directory: "
            ++ optPathDebug (Mount.rootfs exampleRootfsPath).source))
    ∧ ContainerConfiguration.validate noCommandConfig allDirs
      = ValidateResult.err (CartonError.MissingRequiredConfiguration "command")
    ∧ ContainerConfiguration.validate goodConfig allDirs = ValidateResult.ok
    ∧ ContainerConfiguration.validate
        { goodConfig with mounts := [Mount.procfs ⟨false, ["proc"]⟩],
                          devices := [⟨⟨false, ["null"]⟩, 1, 3⟩] } allDirs
      = ContainerConfiguration.validate goodConfig allDirs :=
  ⟨(C5_validate_characterisation {} allDirs
      (fun _ h => Option.noConfusion h)).1 rfl,
   (C5_validate_characterisation noCommandConfig (fun _ => false)
      (by intro m h; simp [noCommandConfig] at h; simp [← h, Mount.rootfs])).2.1
     (Mount.rootfs exampleRootfsPath) exampleRootfsPath rfl rfl rfl,
   (C5_validate_characterisation noCommandConfig allDirs
      (by intro m h; simp [noCommandConfig] at h; simp [← h, Mount.rootfs])).2.2.1
     (Mount.rootfs exampleRootfsPath) exampleRootfsPath rfl rfl rfl rfl,
   (C5_validate_characterisation goodConfig allDirs
      (by intro m h; simp [goodConfig] at h; simp [← h, Mount.rootfs])).2.2.2.1
     (Mount.rootfs exampleRootfsPath) exampleRootfsPath rfl rfl rfl (by simp [goodConfig]),
   (C5_validate_characterisation goodConfig allDirs
      (by intro m h; simp [goodConfig] at h; simp [← h, Mount.rootfs])).2.2.2.2
     [Mount.procfs ⟨false, ["proc"]⟩] [⟨⟨false, ["null"]⟩, 1, 3⟩]⟩

/-- C6: the lifecycle state machine — a freshly built container is
`NotCreated` with no PID; `run()` on a `Running` container returns
`AlreadyRunning`, changes nothing and does not clone; a successful `run()`
records the clone's PID and moves to `Running`; `wait_for_exit()` moves to
`Exited`. -/
theorem C6_state_machine :
    (∀ (b : ContainerBuilder) (r : Option Nat) (c : Container),
        b.build r = Except.ok c → c.state = ContainerState.NotCreated ∧ c.pid = none)
    ∧ (∀ (c : Container) (isDir : PathBuf → Bool) (clone : Except CartonError Nat),
        c.state = ContainerState.Running →
        c.run isDir clone = ⟨c, RunOutcome.err CartonError.AlreadyRunning, false⟩)
    ∧ (∀ (c : Container) (isDir : PathBuf → Bool) (clone : Except CartonError Nat),
        (c.run isDir clone).outcome = RunOutcome.ok →
        ∃ p, clone = Except.ok p
          ∧ (c.run isDir clone).container.pid = some p
          ∧ (c.run isDir clone).container.state = ContainerState.Running)
    ∧ (∀ (c : Container) (w : WaitOutcome),
        (c.wait_for_exit w).state = ContainerState.Exited) := by
  refine ⟨?_, ?_, ?_, ?_⟩
  · intro b r c hc
    cases hc
    exact ⟨rfl, rfl⟩
  · intro c isDir clone hstate
    simp [Container.run, hstate]
  · intro c isDir clone hok
    unfold Container.run at hok ⊢
    cases hstate : c.state <;> simp only [hstate] at hok ⊢
    · cases hval : c.config.validate isDir <;> simp only [hval] at hok ⊢
      · cases clone with
        | error e => exact absurd hok (by simp)
        | ok p => exact ⟨p, rfl, by simp, by simp⟩
      · exact absurd hok (by simp)
      · exact absurd hok (by simp)
    · exact absurd hok (by simp)
    · cases hval : c.config.validate isDir <;> simp only [hval] at hok ⊢
      · cases clone with
        | error e => exact absurd hok (by simp)
        | ok p => exact ⟨p, rfl, by simp, by simp⟩
      · exact absurd hok (by simp)
      · exact absurd hok (by simp)
  · intro c w
    cases w <;> rfl

/-- Witness for C6: the concrete transitions at concrete containers — the
fresh build, the re-entrant `run`, the successful `run`, and the wait. -/
theorem C6_state_machine_witness :
    (((ContainerBuilder.new.build none).toOption.getD {}).state = ContainerState.NotCreated
        ∧ ((ContainerBuilder.new.build none).toOption.getD {}).pid = none)
    ∧ runningContainer.run allDirs (Except.ok 5)
        = ⟨runningContainer, RunOutcome.err CartonError.AlreadyRunning, false⟩
    ∧ ((goodContainer.run allDirs (Except.ok 7)).container.pid = some 7
        ∧ (goodContainer.run allDirs (Except.ok 7)).container.state = ContainerState.Running)
    ∧ (runningContainer.wait_for_exit (WaitOutcome.exited 1 0)).state = ContainerState.Exited :=
  ⟨C6_state_machine.1 ContainerBuilder.new none
      ((ContainerBuilder.new.build none).toOption.getD {}) rfl,
   C6_state_machine.2.1 runningContainer allDirs (Except.ok 5) rfl,
   (by
     obtain ⟨p, hp, h1, h2⟩ :=
       C6_state_machine.2.2.1 goodContainer allDirs (Except.ok 7) rfl
     injection hp with hp'
     subst hp'
     exact ⟨h1, h2⟩),
   C6_state_machine.2.2.2 runningContainer (WaitOutcome.exited 1 0)⟩

/-- C1: the child-side setup performs, in order: the REC|PRIVATE remount of
`/` first (nothing precedes it, even under syscall failures), the
BIND|PRIVATE self-bind of the rootfs source, a phase of mount calls, a
phase of device-node and symlink creation, `pivot_root` with new root and
put-old both the rootfs source, the SLAVE|REC remount of `/`, and finally
`umount2("/", MNT_DETACH)`. -/
theorem C1_setup_order :
    ∀ (cfg : NamespaceConfiguration) (ok : Syscall → Bool),
    (∃ mountPhase devPhase : List Syscall,
      setup_namespaces_calls cfg =
        Syscall.mount none rootPath none (MS_REC ||| MS_PRIVATE) none ::
        Syscall.mount (some cfg.rootfs.source) cfg.rootfs.source none
          (MS_BIND ||| MS_PRIVATE) none ::
        (mountPhase ++ devPhase ++
          [Syscall.pivotRoot cfg.rootfs.source cfg.rootfs.source,
           Syscall.mount none rootPath none (MS_SLAVE ||| MS_REC) none,
           Syscall.umount2 rootPath MNT_DETACH])
      ∧ (∀ c ∈ mountPhase, c.isMount = true)
      ∧ (∀ c ∈ devPhase, c.isDevSetup = true))
    ∧ ((runCalls ok (setup_namespaces_calls cfg)).1).head? =
        some (Syscall.mount none rootPath none (MS_REC ||| MS_PRIVATE) none) := by
  intro cfg ok
  constructor
  · refine ⟨setup_mount_phase cfg, create_device_nodes_calls cfg.rootfs cfg.devices,
      rfl, ?_, ?_⟩
    · intro c hc
      simp only [setup_mount_phase, mount_procfs_calls, mount_tmp_calls, mount_dev_calls,
        mount_additional_binds_calls, List.mem_append, List.mem_singleton,
        List.mem_map] at hc
      rcases hc with ((h | h) | ⟨m, _, h⟩) | h <;> subst h <;> rfl
    · intro c hc
      simp only [create_device_nodes_calls, List.mem_append, List.mem_map,
        List.mem_cons, List.mem_singleton, List.not_mem_nil, or_false] at hc
      rcases hc with ⟨n, _, h⟩ | h | h | h | h <;> subst h <;> rfl
  · have h : setup_namespaces_calls cfg =
        Syscall.mount none rootPath none (MS_REC ||| MS_PRIVATE) none ::
        (Syscall.mount (some cfg.rootfs.source) cfg.rootfs.source none
          (MS_BIND ||| MS_PRIVATE) none ::
         ((setup_mount_phase cfg ++ create_device_nodes_calls cfg.rootfs cfg.devices)
           ++ mount_rootfs_calls cfg.rootfs)) := rfl
    rw [h]
    exact runCalls_head ok _ _

/-- Counterexample to C2 as stated: with one user bind mount, the code's
mount phase (proc, tmp, the bind, dev) differs from applying the canonical
`add_default_mounts()` + `add_mount` list in declaration order (proc, tmp,
dev, then the bind): the code mounts the user bind before the dev tmpfs. -/
theorem C2_counterexample :
    setup_mount_phase exampleNsConfig
      ≠ specMountPhase exampleRootfsPath exampleSpecMounts := by
  decide

/-- C2 (amended): the code's mount phase equals the declaration-order
application (target `rootfs_source.join(relative_target)`, the spec's own
source, fstype, flags, data) of the list procfs at `proc`, tmpfs at `tmp`,
then every configured `MountSpecification` as a default-flagged
(BIND|PRIVATE, no fstype, no data) bind mount, then tmpfs at `dev` — i.e.
proc and tmp are hard-coded before the configured mounts and the dev tmpfs
comes after them, not before.  `add_default_mounts()` itself produces
exactly proc, tmp, dev in that order. -/
theorem C2_mount_phase :
    (∀ cfg : NamespaceConfiguration,
      setup_mount_phase cfg =
        specMountPhase cfg.rootfs.source
          ([Mount.procfs ⟨false, ["proc"]⟩, Mount.tmpfs ⟨false, ["tmp"]⟩]
            ++ cfg.mounts.map (fun m => Mount.bind m.source m.destination none none)
            ++ [Mount.tmpfs ⟨false, ["dev"]⟩]))
    ∧ (ContainerBuilder.new.add_default_mounts).config.mounts =
        [Mount.procfs ⟨false, ["proc"]⟩, Mount.tmpfs ⟨false, ["tmp"]⟩,
         Mount.tmpfs ⟨false, ["dev"]⟩] := by
  constructor
  · intro cfg
    simp [setup_mount_phase, specMountPhase, mount_procfs_calls, mount_tmp_calls,
      mount_dev_calls, mount_additional_binds_calls, Mount.mountCall, Mount.procfs,
      Mount.tmpfs, Mount.bind, List.map_append, List.map_map, Function.comp]
  · rfl
